import Mathlib

/-!
Verification of the langflow artifact-storage layer and output schema.

The Python sources are embedded shallowly:
* `LocalStorageService.*` models `services/storage/local.py`, with the local
  filesystem abstracted as a directory set plus a finite map from
  (identifier, file_name) to byte content, and with injectable filesystem
  failures for the `mkdir` and write steps of `save_file`.
* `S3StorageService.*` models `services/storage/s3.py`, with the bucket
  abstracted as a finite map from object key to body, and with injectable
  provider-call outcomes (the boto3 client raising `NoCredentialsError` or
  `ClientError`).  Provider calls and log statements are recorded as events.
* `OutputValue.construct` models the pydantic validation of
  `lfx/schema/schema.py`.
* The construction-time readiness-flag behaviour of `StorageService.__init__`
  / `S3StorageService.__init__` (`services/storage/service.py`) is modelled as
  explicit state-transition functions on an `InitState`.

Bytes are modelled as `List Nat`; Python exceptions as the inductive
`PyError`; a Python value passed where `bytes` is expected as `PyData`.
-/

/-- Python exception values that the storage layer can raise. -/
inductive PyError where
  | valueError (msg : String)
  | typeError (msg : String)
  | fileNotFoundError (msg : String)
  | permissionError (msg : String)
  | notADirectoryError (msg : String)
  | noCredentialsError
  | clientError (code : String) (msg : String)
  | runtimeError (msg : String)
  deriving DecidableEq, Repr

/-- Observable events: log statements and provider (boto3) calls. -/
inductive Event where
  | logInfo (msg : String)
  | logDebug (msg : String)
  | logWarning (msg : String)
  | logError (msg : String)
  | logException (msg : String)
  | provPut (bucket key : String) (body : List Nat)
  | provGet (bucket key : String)
  | provList (bucket pfx : String)
  | provHead (bucket key : String)
  | provDelete (bucket key : String)
  deriving DecidableEq, Repr

/-- Whether an event is a call to the storage provider. -/
def Event.isProv : Event → Bool
  | .provPut _ _ _ => true
  | .provGet _ _ => true
  | .provList _ _ => true
  | .provHead _ _ => true
  | .provDelete _ _ => true
  | _ => false

/-- Whether an event is a `logger.exception` / `logger.aexception` record. -/
def Event.isLogException : Event → Bool
  | .logException _ => true
  | _ => false

/-- No provider call occurs in the event list. -/
def noProviderCall (evs : List Event) : Bool :=
  evs.all fun e => !e.isProv

/-- The value passed to `save_file` for the `data` parameter: `None`, a byte
payload, or some other (non-bytes) Python object, represented by a string. -/
inductive PyData where
  | pyNone
  | pyBytes (b : List Nat)
  | pyOther (repr : String)
  deriving DecidableEq, Repr

/-- `isinstance(data, bytes)`. -/
def PyData.isBytes : PyData → Bool
  | .pyBytes _ => true
  | _ => false

/-- The spec taxonomy class InvalidInput: a missing or ill-typed required
argument, raised as `ValueError` or `TypeError` by the code. -/
def PyError.isInvalidInput : PyError → Bool
  | .valueError _ => true
  | .typeError _ => true
  | _ => false

/-- The spec taxonomy class NotFound: `FileNotFoundError` on the local
backend, or the provider signalling an absent key (`NoSuchKey`) on the
object-storage backend. -/
def PyError.isNotFound : PyError → Bool
  | .fileNotFoundError _ => true
  | .clientError code _ => code = "NoSuchKey"
  | _ => false

/-- The error classification of an operation result. -/
def errIsInvalidInput {α : Type} : Except PyError α → Bool
  | .error e => e.isInvalidInput
  | .ok _ => false

/-- The result failed with a NotFound-class error. -/
def errIsNotFound {α : Type} : Except PyError α → Bool
  | .error e => e.isNotFound
  | .ok _ => false

/-- Association-list lookup with decidable key equality (first match wins). -/
def alookup {κ α : Type} [DecidableEq κ] (k : κ) : List (κ × α) → Option α
  | [] => none
  | e :: rest => if e.1 = k then some e.2 else alookup k rest

/-- Association-list store: bind `k` to `v`, dropping any previous binding. -/
def astore {κ α : Type} [DecidableEq κ] (k : κ) (v : α) (l : List (κ × α)) :
    List (κ × α) :=
  (k, v) :: l.filter fun e => e.1 ≠ k

/-- Association-list removal of a key. -/
def aremove {κ α : Type} [DecidableEq κ] (k : κ) (l : List (κ × α)) :
    List (κ × α) :=
  l.filter fun e => e.1 ≠ k

theorem alookup_astore_self {κ α : Type} [DecidableEq κ] (k : κ) (v : α)
    (l : List (κ × α)) : alookup k (astore k v l) = some v := by
  simp [alookup, astore]

theorem alookup_eq_none_iff {κ α : Type} [DecidableEq κ] (k : κ)
    (l : List (κ × α)) : alookup k l = none ↔ ∀ p ∈ l, p.1 ≠ k := by
  induction l with
  | nil => simp [alookup]
  | cons e rest ih =>
    by_cases h : e.1 = k
    · simp [alookup, h]
    · simp [alookup, h, ih]

/-!
## Local filesystem backend (`services/storage/local.py`)

The filesystem under `data_dir` is abstracted as the set of existing
identifier directories plus a map from (identifier, file_name) to content.
`LocalEnv` injects the filesystem failures `save_file` can hit: the `mkdir`
step (line 34, outside the try block) and the write step (line 38-39,
inside the try block).
-/

/-- Abstract state of the local store below `data_dir`. -/
structure LocalFS where
  dirs : List String
  files : List ((String × String) × List Nat)
  deriving DecidableEq, Repr

/-- Injectable filesystem failures for `LocalStorageService.save_file`. -/
structure LocalEnv where
  mkdirError : Option PyError
  writeError : Option PyError
  deriving DecidableEq, Repr

/-- A `LocalEnv` in which no filesystem step fails. -/
def okLocalEnv : LocalEnv := ⟨none, none⟩

/-- Result of a local-backend operation: outcome, emitted log events, and
the filesystem afterwards. -/
structure LocalOut (α : Type) where
  res : Except PyError α
  events : List Event
  fs : LocalFS

/-- `mkdir(parents=True, exist_ok=True)` on the identifier directory. -/
def mkdirIdem (identifier : String) (dirs : List String) : List String :=
  if identifier ∈ dirs then dirs else identifier :: dirs

/-- `LocalStorageService.save_file`: creates the identifier directory
(`mkdir` is executed before the try block, so its failure is re-raised with
nothing logged), then writes the payload inside a try block whose except
clause logs `logger.exception` and re-raises. -/
def LocalStorageService.save_file (env : LocalEnv) (identifier file_name : String)
    (data : List Nat) (fs : LocalFS) : LocalOut Unit :=
  match env.mkdirError with
  | some e => ⟨.error e, [], fs⟩
  | none =>
    let fs1 : LocalFS := { fs with dirs := mkdirIdem identifier fs.dirs }
    match env.writeError with
    | some e =>
      ⟨.error e,
       [.logException ("Error saving file " ++ file_name ++ " with identifier "
          ++ identifier)], fs1⟩
    | none =>
      ⟨.ok (),
       [.logInfo ("File " ++ file_name ++ " saved successfully with identifier "
          ++ identifier ++ ".")],
       { fs1 with files := astore (identifier, file_name) data fs1.files }⟩

/-- `LocalStorageService.get_file`: `FileNotFoundError` (after a warning log)
when the path does not exist, otherwise the full byte content. -/
def LocalStorageService.get_file (identifier file_name : String) (fs : LocalFS) :
    LocalOut (List Nat) :=
  match alookup (identifier, file_name) fs.files with
  | none =>
    ⟨.error (.fileNotFoundError ("File " ++ file_name
        ++ " not found with identifier " ++ identifier)),
     [.logWarning ("File " ++ file_name ++ " not found with identifier "
        ++ identifier ++ ".")], fs⟩
  | some content =>
    ⟨.ok content,
     [.logDebug ("File " ++ file_name ++ " retrieved successfully with identifier "
        ++ identifier ++ ".")], fs⟩

/-- `LocalStorageService.list_files`: `FileNotFoundError` (after a warning
log) when the identifier directory does not exist or is not a directory,
otherwise the names of the files in it. -/
def LocalStorageService.list_files (identifier : String) (fs : LocalFS) :
    LocalOut (List String) :=
  if identifier ∈ fs.dirs then
    let names := (fs.files.filter fun e => e.1.1 = identifier).map fun e => e.1.2
    ⟨.ok names,
     [.logInfo ("Listed " ++ toString names.length ++ " files with identifier "
        ++ identifier ++ ".")], fs⟩
  else
    ⟨.error (.fileNotFoundError ("Tenant " ++ identifier
        ++ " directory does not exist.")),
     [.logWarning ("Tenant " ++ identifier ++ " directory does not exist.")], fs⟩

/-- `LocalStorageService.delete_file`: unlinks when the path exists, logs a
warning and continues (no error) when it does not. -/
def LocalStorageService.delete_file (identifier file_name : String) (fs : LocalFS) :
    LocalOut Unit :=
  match alookup (identifier, file_name) fs.files with
  | some _ =>
    ⟨.ok (),
     [.logInfo ("File " ++ file_name ++ " deleted successfully with identifier "
        ++ identifier ++ ".")],
     { fs with files := aremove (identifier, file_name) fs.files }⟩
  | none =>
    ⟨.ok (),
     [.logWarning ("Attempted to delete non-existent file " ++ file_name
        ++ " with identifier " ++ identifier ++ ".")], fs⟩

/-- `LocalStorageService.get_file_size`: `FileNotFoundError` when the path
does not exist, otherwise the OS-reported byte length. -/
def LocalStorageService.get_file_size (identifier file_name : String)
    (fs : LocalFS) : LocalOut Nat :=
  match alookup (identifier, file_name) fs.files with
  | none =>
    ⟨.error (.fileNotFoundError ("File " ++ file_name
        ++ " not found with identifier " ++ identifier)),
     [.logWarning ("File " ++ file_name ++ " not found with identifier "
        ++ identifier ++ ".")], fs⟩
  | some content => ⟨.ok content.length, [], fs⟩

/-!
## Object-storage backend (`services/storage/s3.py`)

The bucket is abstracted as a finite map from object key to body.  `S3Env`
injects the outcome of each boto3 call: `none` means the call behaves as the
normal S3 semantics on the abstract bucket state (for `get_object` that
includes raising `ClientError` with code `NoSuchKey` on an absent key);
`some e` means the call raises `e`.
-/

/-- Abstract bucket contents. -/
structure S3State where
  objects : List (String × List Nat)
  deriving DecidableEq, Repr

/-- Injectable boto3 call outcomes, one per provider operation. -/
structure S3Env where
  putOutcome : Option PyError
  getOutcome : Option PyError
  listOutcome : Option PyError
  headOutcome : Option PyError
  deleteOutcome : Option PyError
  deriving DecidableEq, Repr

/-- An `S3Env` in which every provider call follows normal S3 semantics. -/
def okS3Env : S3Env := ⟨none, none, none, none, none⟩

/-- Result of an object-storage operation: outcome, events (provider calls
and log statements, in order), and the bucket state afterwards. -/
structure S3Out (α : Type) where
  res : Except PyError α
  events : List Event
  st : S3State

/-- `S3StorageService._build_path`: the object key for a stored file. -/
def S3StorageService.buildPath (identifier file_name : String) : String :=
  "tenant-" ++ identifier ++ "/" ++ file_name

/-- The tenant key namespace used by `list_files`. -/
def tenantPfx (identifier : String) : String :=
  "tenant-" ++ identifier ++ "/"

/-- The message of the `RuntimeError` wrapping a `NoSuchBucket` provider
error in `save_file`; it names the configured bucket. -/
def noSuchBucketMsg (bucket : String) : String :=
  "S3 bucket " ++ bucket
    ++ " does not exist. Please create the bucket or check your configuration."

/-- The except clauses of `S3StorageService.save_file` (lines 72-85), applied
to an exception raised by the try body: `NoCredentialsError` is logged and
re-raised; a `ClientError` with code `NoSuchBucket` is logged and re-raised
as a `RuntimeError` naming the bucket; any other `ClientError` is logged and
re-raised; exceptions of other types propagate unhandled. -/
def s3SaveHandler (bucket identifier file_name : String) (e : PyError) :
    PyError × List Event :=
  match e with
  | .noCredentialsError =>
    (.noCredentialsError, [.logException "Credentials not available for AWS S3."])
  | .clientError code msg =>
    if code = "NoSuchBucket" then
      (.runtimeError (noSuchBucketMsg bucket), [.logException (noSuchBucketMsg bucket)])
    else
      (.clientError code msg,
       [.logException ("Error saving file " ++ file_name ++ " in tenant "
          ++ identifier ++ ": " ++ code ++ " - " ++ msg)])
  | e => (e, [])

/-- `S3StorageService.save_file`: `ValueError` when identifier or file_name
is falsy or data is `None` (the check is identity with `None`, so an empty
byte payload passes); inside the try block, a redundant `None` check, a
`TypeError` when data is not bytes, then the `put_object` provider call,
whose failure goes through `s3SaveHandler`. -/
def S3StorageService.save_file (env : S3Env) (bucket identifier file_name : String)
    (data : PyData) (st : S3State) : S3Out Unit :=
  if identifier = "" ∨ file_name = "" ∨ data = PyData.pyNone then
    ⟨.error (.valueError "identifier, file_name, and data must be provided"), [], st⟩
  else
    let key := S3StorageService.buildPath identifier file_name
    match data with
    | .pyNone =>
      ⟨.error (.valueError "Data cannot be None"),
       [.logError "Data is None - this should have been caught by validation"], st⟩
    | .pyOther r =>
      ⟨.error (.typeError ("Data must be bytes, got " ++ r)),
       [.logError ("Data is not bytes: " ++ r)], st⟩
    | .pyBytes b =>
      match env.putOutcome with
      | some e =>
        let he := s3SaveHandler bucket identifier file_name e
        ⟨.error he.1, .provPut bucket key b :: he.2, st⟩
      | none =>
        ⟨.ok (),
         [.provPut bucket key b,
          .logInfo ("File " ++ file_name ++ " saved successfully in tenant "
             ++ identifier ++ ".")],
         { objects := astore key b st.objects }⟩

/-- `S3StorageService.get_file`: `ValueError` when identifier or file_name is
falsy; otherwise a `get_object` call — an absent key makes the provider raise
`ClientError` with code `NoSuchKey`, which the except clause logs and
re-raises; a present key returns the full body. -/
def S3StorageService.get_file (env : S3Env) (bucket identifier file_name : String)
    (st : S3State) : S3Out (List Nat) :=
  if identifier = "" ∨ file_name = "" then
    ⟨.error (.valueError "identifier and file_name must be provided"), [], st⟩
  else
    let key := S3StorageService.buildPath identifier file_name
    let logExc : Event := .logException ("Error retrieving file " ++ file_name
        ++ " from tenant " ++ identifier)
    match env.getOutcome with
    | some e =>
      match e with
      | .clientError c m => ⟨.error (.clientError c m), [.provGet bucket key, logExc], st⟩
      | e => ⟨.error e, [.provGet bucket key], st⟩
    | none =>
      match alookup key st.objects with
      | none =>
        ⟨.error (.clientError "NoSuchKey" "The specified key does not exist."),
         [.provGet bucket key, logExc], st⟩
      | some b =>
        ⟨.ok b,
         [.provGet bucket key,
          .logInfo ("File " ++ file_name ++ " retrieved successfully from tenant "
             ++ identifier ++ ".")], st⟩

/-- The post-processing of `list_objects_v2` contents in
`S3StorageService.list_files` (lines 137-142): keep keys that start with the
tenant namespace and contain no further path separator, stripped of it. -/
def s3ListNames (pfx : String) (keys : List String) : List String :=
  keys.filterMap fun key =>
    if pfx.isPrefixOf key && !(key.drop pfx.length).contains '/' then
      some (key.drop pfx.length)
    else none

/-- `S3StorageService.list_files`: `ValueError` when the identifier is falsy;
otherwise a `list_objects_v2` call under the tenant namespace (a provider
`ClientError` is logged and re-raised), then prefix stripping and
subdirectory filtering of the returned keys. -/
def S3StorageService.list_files (env : S3Env) (bucket identifier : String)
    (st : S3State) : S3Out (List String) :=
  if identifier = "" then
    ⟨.error (.valueError "identifier must be provided"), [], st⟩
  else
    let pfx := tenantPfx identifier
    match env.listOutcome with
    | some e =>
      match e with
      | .clientError c m =>
        ⟨.error (.clientError c m),
         [.provList bucket pfx,
          .logException ("Error listing files in tenant " ++ identifier)], st⟩
      | e => ⟨.error e, [.provList bucket pfx], st⟩
    | none =>
      let contents := (st.objects.filter fun p => pfx.isPrefixOf p.1).map Prod.fst
      let files := s3ListNames pfx contents
      ⟨.ok files,
       [.provList bucket pfx,
        .logInfo (toString files.length ++ " files listed in tenant "
           ++ identifier ++ ".")], st⟩

/-- `S3StorageService.delete_file`: `ValueError` when identifier or file_name
is falsy; otherwise a `delete_object` call, idempotent at the provider level
(deleting an absent key is not an error); a provider `ClientError` is logged
and re-raised. -/
def S3StorageService.delete_file (env : S3Env) (bucket identifier file_name : String)
    (st : S3State) : S3Out Unit :=
  if identifier = "" ∨ file_name = "" then
    ⟨.error (.valueError "identifier and file_name must be provided"), [], st⟩
  else
    let key := S3StorageService.buildPath identifier file_name
    match env.deleteOutcome with
    | some e =>
      match e with
      | .clientError c m =>
        ⟨.error (.clientError c m),
         [.provDelete bucket key,
          .logException ("Error deleting file " ++ file_name ++ " from tenant "
             ++ identifier)], st⟩
      | e => ⟨.error e, [.provDelete bucket key], st⟩
    | none =>
      ⟨.ok (),
       [.provDelete bucket key,
        .logInfo ("File " ++ file_name ++ " deleted successfully from tenant "
           ++ identifier ++ ".")],
       { objects := aremove key st.objects }⟩

/-- `S3StorageService.get_file_size`: `ValueError` when identifier or
file_name is falsy; otherwise a `head_object` call — an absent key makes the
provider raise `ClientError` with code `404`, which the except clause logs
and re-raises; a present key returns the reported content length. -/
def S3StorageService.get_file_size (env : S3Env) (bucket identifier file_name : String)
    (st : S3State) : S3Out Nat :=
  if identifier = "" ∨ file_name = "" then
    ⟨.error (.valueError "identifier and file_name must be provided"), [], st⟩
  else
    let key := S3StorageService.buildPath identifier file_name
    let logExc : Event := .logException ("Error getting file size for " ++ file_name
        ++ " in tenant " ++ identifier)
    match env.headOutcome with
    | some e =>
      match e with
      | .clientError c m => ⟨.error (.clientError c m), [.provHead bucket key, logExc], st⟩
      | e => ⟨.error e, [.provHead bucket key], st⟩
    | none =>
      match alookup key st.objects with
      | none => ⟨.error (.clientError "404" "Not Found"), [.provHead bucket key, logExc], st⟩
      | some b =>
        ⟨.ok b.length,
         [.provHead bucket key,
          .logInfo ("File " ++ file_name ++ " size retrieved successfully from tenant "
             ++ identifier ++ ": " ++ toString b.length ++ " bytes.")], st⟩

/-!
## Construction and the readiness flag (`services/storage/service.py`)

`StorageService.__init__` stores the collaborators, derives `data_dir`, and
then calls `self.set_ready()` itself (service.py line 23).
`S3StorageService.__init__` first runs the base constructor, then resolves
settings and builds the boto3 client, then calls `set_ready()` again.
`LocalStorageService.__init__` runs the base constructor then `set_ready()`.
The observable construction-time state is modelled here by an explicit
record of the flag and which construction steps have completed.
-/

/-- Construction-time state of a storage service instance. -/
structure InitState where
  ready : Bool
  clientBuilt : Bool
  deriving DecidableEq, Repr

/-- State at entry of a concrete backend constructor. -/
def initEntry : InitState := ⟨false, false⟩

/-- `StorageService.set_ready`: sets the flag true, never false. -/
def StorageService.set_ready (s : InitState) : InitState :=
  { s with ready := true }

/-- `StorageService.__init__`: the shared base constructor, which ends by
calling `set_ready()`. -/
def StorageService.init_base (s : InitState) : InitState :=
  StorageService.set_ready s

/-- The client-construction step of `S3StorageService.__init__` (resolving
settings and building the boto3 client, lines 17-34). -/
def S3StorageService.build_client (s : InitState) : InitState :=
  { s with clientBuilt := true }

/-- The successive states seen while `S3StorageService.__init__` runs:
entry, after `super().__init__()`, after the client is built, and after the
final `set_ready()`. -/
def s3InitTrace : List InitState :=
  [initEntry,
   StorageService.init_base initEntry,
   S3StorageService.build_client (StorageService.init_base initEntry),
   StorageService.set_ready
     (S3StorageService.build_client (StorageService.init_base initEntry))]

/-- The successive states seen while `LocalStorageService.__init__` runs:
entry, after `super().__init__()`, and after the final `set_ready()`.  The
local backend builds no client. -/
def localInitTrace : List InitState :=
  [initEntry,
   StorageService.init_base initEntry,
   StorageService.set_ready (StorageService.init_base initEntry)]

/-!
## Output schema (`lfx/schema/schema.py`)

`OutputValue` is a pydantic model with fields
`message : ErrorLog | StreamURL | dict | list | str` and `type : str`.
Python values appearing in such a record are modelled by `PyVal`; pydantic
construction-time validation by `OutputValue.construct`.
-/

/-- A Python value as seen by pydantic validation. -/
inductive PyVal where
  | vNone : PyVal
  | vBool (b : Bool) : PyVal
  | vInt (n : Int) : PyVal
  | vStr (s : String) : PyVal
  | vList (xs : List PyVal) : PyVal
  | vDict (kvs : List (String × PyVal)) : PyVal

/-- The value is a string. -/
def PyVal.isStr : PyVal → Bool
  | .vStr _ => true
  | _ => false

/-- The value is a generic ordered sequence (`list`). -/
def PyVal.isList : PyVal → Bool
  | .vList _ => true
  | _ => false

/-- The value is a generic key-value map (`dict`). -/
def PyVal.isDict : PyVal → Bool
  | .vDict _ => true
  | _ => false

/-- The dict binds key `k` to a string value. -/
def hasStrKey (kvs : List (String × PyVal)) (k : String) : Bool :=
  match alookup k kvs with
  | some (.vStr _) => true
  | _ => false

/-- The value matches the `ErrorLog` TypedDict: a dict whose required keys
`errorMessage` and `stackTrace` are present with string values. -/
def PyVal.isErrorLog : PyVal → Bool
  | .vDict kvs => hasStrKey kvs "errorMessage" && hasStrKey kvs "stackTrace"
  | _ => false

/-- The value matches the `StreamURL` TypedDict: a dict whose required key
`location` is present with a string value. -/
def PyVal.isStreamURL : PyVal → Bool
  | .vDict kvs => hasStrKey kvs "location"
  | _ => false

/-- The annotation `ErrorLog | StreamURL | dict | list | str` on
`OutputValue.message`: the value validates against some member of the
union. -/
def validMessage (v : PyVal) : Bool :=
  v.isErrorLog || v.isStreamURL || v.isDict || v.isList || v.isStr

/-- A pydantic `ValidationError`. -/
structure ValidationError where
  msg : String

/-- A validated `OutputValue` record. -/
structure OutputValue where
  message : PyVal
  type : String

/-- Pydantic construction of `OutputValue`: succeeds when `message`
validates against its union annotation and `type` is a string, and fails
with a `ValidationError` otherwise. -/
def OutputValue.construct (message ty : PyVal) : Except ValidationError OutputValue :=
  if validMessage message then
    match ty with
    | .vStr s => .ok ⟨message, s⟩
    | _ => .error ⟨"type: input should be a valid string"⟩
  else
    .error ⟨"message: input does not match any member of the union"⟩

/-- The construction attempt succeeded. -/
def constructOk {ε α : Type} : Except ε α → Bool
  | .ok _ => true
  | .error _ => false

/-!
## Claims
-/

/-- C1: on either backend, `save_file` followed by `get_file` on the same
(identifier, file_name) pair returns exactly the bytes written, and after two
`save_file` calls with different payloads `get_file` returns the second
payload (last write wins). -/
theorem save_then_get_roundtrip (identifier file_name : String)
    (data d1 d2 : List Nat) (fs : LocalFS) (bucket : String) (st : S3State)
    (hid : identifier ≠ "") (hfn : file_name ≠ "") :
    (LocalStorageService.get_file identifier file_name
        (LocalStorageService.save_file okLocalEnv identifier file_name data fs).fs).res
      = .ok data ∧
    (LocalStorageService.get_file identifier file_name
        (LocalStorageService.save_file okLocalEnv identifier file_name d2
          (LocalStorageService.save_file okLocalEnv identifier file_name d1 fs).fs).fs).res
      = .ok d2 ∧
    (S3StorageService.get_file okS3Env bucket identifier file_name
        (S3StorageService.save_file okS3Env bucket identifier file_name
          (PyData.pyBytes data) st).st).res
      = .ok data ∧
    (S3StorageService.get_file okS3Env bucket identifier file_name
        (S3StorageService.save_file okS3Env bucket identifier file_name (PyData.pyBytes d2)
          (S3StorageService.save_file okS3Env bucket identifier file_name
            (PyData.pyBytes d1) st).st).st).res
      = .ok d2 := by
  refine ⟨?_, ?_, ?_, ?_⟩ <;>
    simp [LocalStorageService.save_file, LocalStorageService.get_file,
      S3StorageService.save_file, S3StorageService.get_file, okLocalEnv, okS3Env,
      hid, hfn, alookup_astore_self]

/-- C1 witness: the round trip and the overwrite evaluated at concrete
inputs on empty stores. -/
theorem save_then_get_roundtrip_witness :
    (LocalStorageService.get_file "t" "f"
        (LocalStorageService.save_file okLocalEnv "t" "f" [1, 2] ⟨[], []⟩).fs).res
      = .ok [1, 2] ∧
    (LocalStorageService.get_file "t" "f"
        (LocalStorageService.save_file okLocalEnv "t" "f" [4, 5]
          (LocalStorageService.save_file okLocalEnv "t" "f" [3] ⟨[], []⟩).fs).fs).res
      = .ok [4, 5] ∧
    (S3StorageService.get_file okS3Env "b" "t" "f"
        (S3StorageService.save_file okS3Env "b" "t" "f"
          (PyData.pyBytes [1, 2]) ⟨[]⟩).st).res
      = .ok [1, 2] ∧
    (S3StorageService.get_file okS3Env "b" "t" "f"
        (S3StorageService.save_file okS3Env "b" "t" "f" (PyData.pyBytes [4, 5])
          (S3StorageService.save_file okS3Env "b" "t" "f"
            (PyData.pyBytes [3]) ⟨[]⟩).st).st).res
      = .ok [4, 5] :=
  save_then_get_roundtrip "t" "f" [1, 2] [3] [4, 5] ⟨[], []⟩ "b" ⟨[]⟩
    (by decide) (by decide)

/-- C2: `list_files` on the local backend with an identifier whose directory
does not exist fails with a NotFound error, while on the object-storage
backend an identifier with zero stored objects under its tenant namespace
yields an empty sequence rather than an error. -/
theorem list_files_missing_namespace (identifier bucket : String)
    (fs : LocalFS) (st : S3State) (env : S3Env)
    (hid : identifier ≠ "")
    (hdir : identifier ∉ fs.dirs)
    (hempty : ∀ p ∈ st.objects, (tenantPfx identifier).isPrefixOf p.1 = false)
    (henv : env.listOutcome = none) :
    errIsNotFound (LocalStorageService.list_files identifier fs).res = true ∧
    (S3StorageService.list_files env bucket identifier st).res = .ok [] := by
  constructor
  · simp [LocalStorageService.list_files, hdir, errIsNotFound, PyError.isNotFound]
  · have hfilter : (st.objects.filter fun p => (tenantPfx identifier).isPrefixOf p.1) = [] := by
      rw [List.filter_eq_nil_iff]
      intro p hp
      simp [hempty p hp]
    simp [S3StorageService.list_files, hid, henv, hfilter, s3ListNames]

/-- C2 witness: a store with no directories and an empty bucket. -/
theorem list_files_missing_namespace_witness :
    errIsNotFound (LocalStorageService.list_files "t" ⟨[], []⟩).res = true ∧
    (S3StorageService.list_files okS3Env "b" "t" ⟨[]⟩).res = .ok [] :=
  list_files_missing_namespace "t" "b" ⟨[], []⟩ ⟨[]⟩ okS3Env
    (by decide) (by simp) (by simp) rfl

/-- C3: every object-storage operation fails with an InvalidInput-class
error and makes no provider call when its identifier or (where it takes one)
file_name is missing, and `save_file` additionally when data is missing
(`None`) or not a byte payload. -/
theorem s3_validates_before_provider_call (env : S3Env)
    (bucket identifier file_name : String) (data : PyData) (st : S3State) :
    ((identifier = "" ∨ file_name = "" ∨ data = PyData.pyNone ∨ data.isBytes = false) →
      errIsInvalidInput
          (S3StorageService.save_file env bucket identifier file_name data st).res = true ∧
      noProviderCall
          (S3StorageService.save_file env bucket identifier file_name data st).events = true) ∧
    ((identifier = "" ∨ file_name = "") →
      errIsInvalidInput
          (S3StorageService.get_file env bucket identifier file_name st).res = true ∧
      noProviderCall
          (S3StorageService.get_file env bucket identifier file_name st).events = true) ∧
    (identifier = "" →
      errIsInvalidInput (S3StorageService.list_files env bucket identifier st).res = true ∧
      noProviderCall (S3StorageService.list_files env bucket identifier st).events = true) ∧
    ((identifier = "" ∨ file_name = "") →
      errIsInvalidInput
          (S3StorageService.get_file_size env bucket identifier file_name st).res = true ∧
      noProviderCall
          (S3StorageService.get_file_size env bucket identifier file_name st).events = true) ∧
    ((identifier = "" ∨ file_name = "") →
      errIsInvalidInput
          (S3StorageService.delete_file env bucket identifier file_name st).res = true ∧
      noProviderCall
          (S3StorageService.delete_file env bucket identifier file_name st).events = true) := by
  refine ⟨?_, ?_, ?_, ?_, ?_⟩
  · intro h
    by_cases h1 : identifier = ""
    · simp [S3StorageService.save_file, h1, errIsInvalidInput, PyError.isInvalidInput,
        noProviderCall]
    · by_cases h2 : file_name = ""
      · simp [S3StorageService.save_file, h2, errIsInvalidInput, PyError.isInvalidInput,
          noProviderCall]
      · cases data with
        | pyNone =>
          simp [S3StorageService.save_file, errIsInvalidInput, PyError.isInvalidInput,
            noProviderCall]
        | pyBytes b =>
          rcases h with h | h | h | h
          · exact absurd h h1
          · exact absurd h h2
          · exact absurd h (by simp)
          · exact absurd h (by simp [PyData.isBytes])
        | pyOther r =>
          simp [S3StorageService.save_file, h1, h2, errIsInvalidInput,
            PyError.isInvalidInput, noProviderCall, Event.isProv]
  · intro h
    rcases h with h | h <;>
      simp [S3StorageService.get_file, h, errIsInvalidInput, PyError.isInvalidInput,
        noProviderCall]
  · intro h
    simp [S3StorageService.list_files, h, errIsInvalidInput, PyError.isInvalidInput,
      noProviderCall]
  · intro h
    rcases h with h | h <;>
      simp [S3StorageService.get_file_size, h, errIsInvalidInput, PyError.isInvalidInput,
        noProviderCall]
  · intro h
    rcases h with h | h <;>
      simp [S3StorageService.delete_file, h, errIsInvalidInput, PyError.isInvalidInput,
        noProviderCall]

/-- C3 witness: each operation exercised at a concrete missing argument
(and `save_file` also at non-bytes data), each discharging the corresponding
hypothesis of the validation theorem. -/
theorem s3_validates_before_provider_call_witness :
    (errIsInvalidInput
        (S3StorageService.save_file okS3Env "b" "" "f" (PyData.pyBytes []) ⟨[]⟩).res = true ∧
     noProviderCall
        (S3StorageService.save_file okS3Env "b" "" "f" (PyData.pyBytes []) ⟨[]⟩).events = true) ∧
    (errIsInvalidInput
        (S3StorageService.save_file okS3Env "b" "t" "f" (PyData.pyOther "str") ⟨[]⟩).res = true ∧
     noProviderCall
        (S3StorageService.save_file okS3Env "b" "t" "f" (PyData.pyOther "str") ⟨[]⟩).events = true) ∧
    (errIsInvalidInput (S3StorageService.get_file okS3Env "b" "t" "" ⟨[]⟩).res = true ∧
     noProviderCall (S3StorageService.get_file okS3Env "b" "t" "" ⟨[]⟩).events = true) ∧
    (errIsInvalidInput (S3StorageService.list_files okS3Env "b" "" ⟨[]⟩).res = true ∧
     noProviderCall (S3StorageService.list_files okS3Env "b" "" ⟨[]⟩).events = true) ∧
    (errIsInvalidInput (S3StorageService.get_file_size okS3Env "b" "" "f" ⟨[]⟩).res = true ∧
     noProviderCall (S3StorageService.get_file_size okS3Env "b" "" "f" ⟨[]⟩).events = true) ∧
    (errIsInvalidInput (S3StorageService.delete_file okS3Env "b" "t" "" ⟨[]⟩).res = true ∧
     noProviderCall (S3StorageService.delete_file okS3Env "b" "t" "" ⟨[]⟩).events = true) :=
  ⟨(s3_validates_before_provider_call okS3Env "b" "" "f" (PyData.pyBytes []) ⟨[]⟩).1
      (Or.inl rfl),
   (s3_validates_before_provider_call okS3Env "b" "t" "f" (PyData.pyOther "str") ⟨[]⟩).1
      (Or.inr (Or.inr (Or.inr rfl))),
   (s3_validates_before_provider_call okS3Env "b" "t" "" (PyData.pyBytes []) ⟨[]⟩).2.1
      (Or.inr rfl),
   (s3_validates_before_provider_call okS3Env "b" "" "" (PyData.pyBytes []) ⟨[]⟩).2.2.1 rfl,
   (s3_validates_before_provider_call okS3Env "b" "" "f" (PyData.pyBytes []) ⟨[]⟩).2.2.2.1
      (Or.inl rfl),
   (s3_validates_before_provider_call okS3Env "b" "t" "" (PyData.pyBytes []) ⟨[]⟩).2.2.2.2
      (Or.inr rfl)⟩

/-- C4: `get_file` on a pair under which no file is stored fails with a
NotFound-class error on both backends: `FileNotFoundError` locally, and the
provider's `NoSuchKey` client error (logged and re-raised) on object
storage. -/
theorem get_file_never_saved_not_found (identifier file_name bucket : String)
    (fs : LocalFS) (st : S3State) (env : S3Env)
    (hid : identifier ≠ "") (hfn : file_name ≠ "")
    (hlocal : alookup (identifier, file_name) fs.files = none)
    (hs3 : alookup (S3StorageService.buildPath identifier file_name) st.objects = none)
    (henv : env.getOutcome = none) :
    errIsNotFound (LocalStorageService.get_file identifier file_name fs).res = true ∧
    errIsNotFound (S3StorageService.get_file env bucket identifier file_name st).res = true := by
  constructor
  · simp [LocalStorageService.get_file, hlocal, errIsNotFound, PyError.isNotFound]
  · simp [S3StorageService.get_file, hid, hfn, henv, hs3, errIsNotFound, PyError.isNotFound]

/-- C4 witness: empty stores, a pair never saved. -/
theorem get_file_never_saved_not_found_witness :
    errIsNotFound (LocalStorageService.get_file "t" "f" ⟨[], []⟩).res = true ∧
    errIsNotFound (S3StorageService.get_file okS3Env "b" "t" "f" ⟨[]⟩).res = true :=
  get_file_never_saved_not_found "t" "f" "b" ⟨[], []⟩ ⟨[]⟩ okS3Env
    (by decide) (by decide) rfl rfl rfl

/-- C5 counterexample: a `mkdir` failure (here `PermissionError`) in
`LocalStorageService.save_file` is raised before the try block, so the call
fails with nothing logged — refuting that every failing path of `save_file`
logs before re-raising. -/
theorem local_save_mkdir_failure_unlogged :
    (LocalStorageService.save_file
        ⟨some (PyError.permissionError "Permission denied"), none⟩
        "tenant" "file.bin" [0] ⟨[], []⟩).res
      = .error (PyError.permissionError "Permission denied") ∧
    (LocalStorageService.save_file
        ⟨some (PyError.permissionError "Permission denied"), none⟩
        "tenant" "file.bin" [0] ⟨[], []⟩).events = [] :=
  ⟨rfl, rfl⟩

/-- C5 (amended): a failure of the write step of the local `save_file` is
logged (with the file name and identifier as context) and re-raised
unchanged, but a failure of the directory-creation step — which runs before
the try block — is re-raised unchanged with nothing logged. -/
theorem local_save_failure_logging (env : LocalEnv) (identifier file_name : String)
    (data : List Nat) (fs : LocalFS) (e : PyError) :
    (env.mkdirError = some e →
      (LocalStorageService.save_file env identifier file_name data fs).res = .error e ∧
      (LocalStorageService.save_file env identifier file_name data fs).events = []) ∧
    (env.mkdirError = none → env.writeError = some e →
      (LocalStorageService.save_file env identifier file_name data fs).res = .error e ∧
      (LocalStorageService.save_file env identifier file_name data fs).events =
        [.logException ("Error saving file " ++ file_name ++ " with identifier "
           ++ identifier)]) := by
  constructor
  · intro h
    simp [LocalStorageService.save_file, h]
  · intro h1 h2
    simp [LocalStorageService.save_file, h1, h2]

/-- C5 witness: both failing steps exercised at concrete inputs. -/
theorem local_save_failure_logging_witness :
    ((LocalStorageService.save_file ⟨some (PyError.permissionError "denied"), none⟩
        "t" "f" [0] ⟨[], []⟩).res = .error (PyError.permissionError "denied") ∧
     (LocalStorageService.save_file ⟨some (PyError.permissionError "denied"), none⟩
        "t" "f" [0] ⟨[], []⟩).events = []) ∧
    ((LocalStorageService.save_file ⟨none, some (PyError.permissionError "denied")⟩
        "t" "f" [0] ⟨[], []⟩).res = .error (PyError.permissionError "denied") ∧
     (LocalStorageService.save_file ⟨none, some (PyError.permissionError "denied")⟩
        "t" "f" [0] ⟨[], []⟩).events =
       [.logException ("Error saving file " ++ "f" ++ " with identifier " ++ "t")]) :=
  ⟨(local_save_failure_logging ⟨some (PyError.permissionError "denied"), none⟩
      "t" "f" [0] ⟨[], []⟩ (PyError.permissionError "denied")).1 rfl,
   (local_save_failure_logging ⟨none, some (PyError.permissionError "denied")⟩
      "t" "f" [0] ⟨[], []⟩ (PyError.permissionError "denied")).2 rfl rfl⟩

/-- C6 counterexample: during `S3StorageService.__init__`, right after the
shared base constructor returns, the readiness flag is already true while
the client has not yet been built — refuting that the flag is never true
before the backend's construction steps have all completed. -/
theorem ready_true_before_client_built :
    (StorageService.init_base initEntry).ready = true ∧
    (StorageService.init_base initEntry).clientBuilt = false ∧
    StorageService.init_base initEntry ∈ s3InitTrace := by
  refine ⟨rfl, rfl, ?_⟩
  simp [s3InitTrace]

/-- C6 (amended): the readiness flag is one-way — `set_ready` only sets it
true, the base constructor ends by setting it true, and client construction
leaves it unchanged, so no construction step resets it to false and it is
true once construction completes; however it becomes true already when the
shared base constructor finishes, which for the object-storage backend is
before the client is built. -/
theorem readiness_flag_one_way (s : InitState) :
    (StorageService.set_ready s).ready = true ∧
    (StorageService.init_base s).ready = true ∧
    (S3StorageService.build_client s).ready = s.ready ∧
    s3InitTrace.map InitState.ready = [false, true, true, true] ∧
    localInitTrace.map InitState.ready = [false, true, true] :=
  ⟨rfl, rfl, rfl, rfl, rfl⟩

/-- C7: when the `put_object` provider call of the object-storage
`save_file` fails, missing credentials are logged and the
`NoCredentialsError` re-raised as-is; a `NoSuchBucket` client error is
re-raised wrapped in a `RuntimeError` whose message names the configured
bucket; and any other client error is logged and re-raised verbatim. -/
theorem s3_save_provider_failure_classification
    (bucket identifier file_name : String) (b : List Nat) (st : S3State)
    (code msg : String)
    (hid : identifier ≠ "") (hfn : file_name ≠ "") :
    ((S3StorageService.save_file ⟨some PyError.noCredentialsError, none, none, none, none⟩
        bucket identifier file_name (PyData.pyBytes b) st).res
       = .error PyError.noCredentialsError ∧
     (S3StorageService.save_file ⟨some PyError.noCredentialsError, none, none, none, none⟩
        bucket identifier file_name (PyData.pyBytes b) st).events.any Event.isLogException
       = true) ∧
    ((S3StorageService.save_file
        ⟨some (PyError.clientError "NoSuchBucket" msg), none, none, none, none⟩
        bucket identifier file_name (PyData.pyBytes b) st).res
       = .error (PyError.runtimeError (noSuchBucketMsg bucket)) ∧
     (S3StorageService.save_file
        ⟨some (PyError.clientError "NoSuchBucket" msg), none, none, none, none⟩
        bucket identifier file_name (PyData.pyBytes b) st).events.any Event.isLogException
       = true ∧
     noSuchBucketMsg bucket
       = "S3 bucket " ++ bucket
           ++ " does not exist. Please create the bucket or check your configuration.") ∧
    (code ≠ "NoSuchBucket" →
      (S3StorageService.save_file
          ⟨some (PyError.clientError code msg), none, none, none, none⟩
          bucket identifier file_name (PyData.pyBytes b) st).res
        = .error (PyError.clientError code msg) ∧
      (S3StorageService.save_file
          ⟨some (PyError.clientError code msg), none, none, none, none⟩
          bucket identifier file_name (PyData.pyBytes b) st).events.any Event.isLogException
        = true) := by
  refine ⟨?_, ?_, ?_⟩
  · simp [S3StorageService.save_file, s3SaveHandler, hid, hfn, Event.isLogException]
  · simp [S3StorageService.save_file, s3SaveHandler, hid, hfn, Event.isLogException,
      noSuchBucketMsg]
  · intro hcode
    simp [S3StorageService.save_file, s3SaveHandler, hid, hfn, hcode, Event.isLogException]

/-- C7 witness: the three failure causes at concrete inputs. -/
theorem s3_save_provider_failure_classification_witness :
    ((S3StorageService.save_file ⟨some PyError.noCredentialsError, none, none, none, none⟩
        "bkt" "t" "f" (PyData.pyBytes [7]) ⟨[]⟩).res
       = .error PyError.noCredentialsError ∧
     (S3StorageService.save_file ⟨some PyError.noCredentialsError, none, none, none, none⟩
        "bkt" "t" "f" (PyData.pyBytes [7]) ⟨[]⟩).events.any Event.isLogException = true) ∧
    ((S3StorageService.save_file
        ⟨some (PyError.clientError "NoSuchBucket" "gone"), none, none, none, none⟩
        "bkt" "t" "f" (PyData.pyBytes [7]) ⟨[]⟩).res
       = .error (PyError.runtimeError (noSuchBucketMsg "bkt")) ∧
     (S3StorageService.save_file
        ⟨some (PyError.clientError "NoSuchBucket" "gone"), none, none, none, none⟩
        "bkt" "t" "f" (PyData.pyBytes [7]) ⟨[]⟩).events.any Event.isLogException = true ∧
     noSuchBucketMsg "bkt"
       = "S3 bucket " ++ "bkt"
           ++ " does not exist. Please create the bucket or check your configuration.") ∧
    ((S3StorageService.save_file
        ⟨some (PyError.clientError "AccessDenied" "no"), none, none, none, none⟩
        "bkt" "t" "f" (PyData.pyBytes [7]) ⟨[]⟩).res
       = .error (PyError.clientError "AccessDenied" "no") ∧
     (S3StorageService.save_file
        ⟨some (PyError.clientError "AccessDenied" "no"), none, none, none, none⟩
        "bkt" "t" "f" (PyData.pyBytes [7]) ⟨[]⟩).events.any Event.isLogException = true) := by
  have h := s3_save_provider_failure_classification "bkt" "t" "f" [7] ⟨[]⟩
    "AccessDenied" "no" (by decide) (by decide)
  have h2 := s3_save_provider_failure_classification "bkt" "t" "f" [7] ⟨[]⟩
    "AccessDenied" "gone" (by decide) (by decide)
  exact ⟨h.1, h2.2.1, h.2.2 (by decide)⟩

/-- C8: `delete_file` on an absent (identifier, file_name) pair completes
without error on both backends — the local backend logs a warning and leaves
the filesystem unchanged, and the object-storage backend issues the
(provider-level idempotent) delete call and succeeds. -/
theorem delete_file_absent_no_error (identifier file_name bucket : String)
    (fs : LocalFS) (st : S3State) (env : S3Env)
    (hid : identifier ≠ "") (hfn : file_name ≠ "")
    (habs : alookup (identifier, file_name) fs.files = none)
    (henv : env.deleteOutcome = none) :
    (LocalStorageService.delete_file identifier file_name fs).res = .ok () ∧
    (LocalStorageService.delete_file identifier file_name fs).fs = fs ∧
    (LocalStorageService.delete_file identifier file_name fs).events =
      [.logWarning ("Attempted to delete non-existent file " ++ file_name
         ++ " with identifier " ++ identifier ++ ".")] ∧
    (S3StorageService.delete_file env bucket identifier file_name st).res = .ok () ∧
    (S3StorageService.delete_file env bucket identifier file_name st).events.any
      Event.isProv = true := by
  refine ⟨?_, ?_, ?_, ?_, ?_⟩ <;>
    simp [LocalStorageService.delete_file, S3StorageService.delete_file,
      habs, hid, hfn, henv, Event.isProv]

/-- C8 witness: deleting from empty stores. -/
theorem delete_file_absent_no_error_witness :
    (LocalStorageService.delete_file "t" "f" ⟨[], []⟩).res = .ok () ∧
    (LocalStorageService.delete_file "t" "f" ⟨[], []⟩).fs = ⟨[], []⟩ ∧
    (LocalStorageService.delete_file "t" "f" ⟨[], []⟩).events =
      [.logWarning ("Attempted to delete non-existent file " ++ "f"
         ++ " with identifier " ++ "t" ++ ".")] ∧
    (S3StorageService.delete_file okS3Env "b" "t" "f" ⟨[]⟩).res = .ok () ∧
    (S3StorageService.delete_file okS3Env "b" "t" "f" ⟨[]⟩).events.any Event.isProv = true :=
  delete_file_absent_no_error "t" "f" "b" ⟨[], []⟩ ⟨[]⟩ okS3Env
    (by decide) (by decide) rfl rfl

/-- C9: constructing an `OutputValue` with a string `type` succeeds exactly
when `message` matches one of the five permitted shapes (ErrorLog record,
StreamURL record, generic map, generic sequence, or string) — equivalently,
since the record shapes are dicts, exactly when it is a dict, a list, or a
string; any other `message` makes construction fail (with a
`ValidationError`, by the return type of `OutputValue.construct`), and the
`type` string is unconstrained. -/
theorem outputValue_message_validation (m : PyVal) (t : String) :
    constructOk (OutputValue.construct m (PyVal.vStr t)) =
      (m.isErrorLog || m.isStreamURL || m.isDict || m.isList || m.isStr) ∧
    constructOk (OutputValue.construct m (PyVal.vStr t)) =
      (m.isDict || m.isList || m.isStr) := by
  constructor
  · cases m <;>
      simp [OutputValue.construct, constructOk, validMessage, PyVal.isErrorLog,
        PyVal.isStreamURL, PyVal.isDict, PyVal.isList, PyVal.isStr]
  · cases m <;>
      simp [OutputValue.construct, constructOk, validMessage, PyVal.isErrorLog,
        PyVal.isStreamURL, PyVal.isDict, PyVal.isList, PyVal.isStr]

/-- C10: the object-storage `save_file` accepts an empty byte payload —
the missing-data check tests identity with `None`, not falsiness — so with
non-missing identifier and file_name the put is performed and the empty
object stored; by contrast, an empty identifier or file_name is rejected as
missing with an InvalidInput-class error. -/
theorem s3_save_accepts_empty_bytes (env : S3Env) (bucket identifier file_name : String)
    (st : S3State)
    (hid : identifier ≠ "") (hfn : file_name ≠ "") (henv : env.putOutcome = none) :
    (S3StorageService.save_file env bucket identifier file_name (PyData.pyBytes []) st).res
      = .ok () ∧
    (S3StorageService.save_file env bucket identifier file_name
        (PyData.pyBytes []) st).events.any Event.isProv = true ∧
    (S3StorageService.save_file env bucket identifier file_name
        (PyData.pyBytes []) st).st.objects =
      astore (S3StorageService.buildPath identifier file_name) [] st.objects ∧
    errIsInvalidInput
      (S3StorageService.save_file env bucket "" file_name (PyData.pyBytes []) st).res = true ∧
    errIsInvalidInput
      (S3StorageService.save_file env bucket identifier "" (PyData.pyBytes []) st).res
      = true := by
  refine ⟨?_, ?_, ?_, ?_, ?_⟩ <;>
    simp [S3StorageService.save_file, hid, hfn, henv, Event.isProv,
      errIsInvalidInput, PyError.isInvalidInput]

/-- C10 witness: the empty payload saved under concrete names. -/
theorem s3_save_accepts_empty_bytes_witness :
    (S3StorageService.save_file okS3Env "b" "t" "f" (PyData.pyBytes []) ⟨[]⟩).res = .ok () ∧
    (S3StorageService.save_file okS3Env "b" "t" "f"
        (PyData.pyBytes []) ⟨[]⟩).events.any Event.isProv = true ∧
    (S3StorageService.save_file okS3Env "b" "t" "f" (PyData.pyBytes []) ⟨[]⟩).st.objects =
      astore (S3StorageService.buildPath "t" "f") [] [] ∧
    errIsInvalidInput
      (S3StorageService.save_file okS3Env "b" "" "f" (PyData.pyBytes []) ⟨[]⟩).res = true ∧
    errIsInvalidInput
      (S3StorageService.save_file okS3Env "b" "t" "" (PyData.pyBytes []) ⟨[]⟩).res = true :=
  s3_save_accepts_empty_bytes okS3Env "b" "t" "f" ⟨[]⟩ (by decide) (by decide) rfl
